import Mathlib

/-!
Verification development for the AI-Assistant back end.

The definitions below are a shallow embedding of the Python sources:
  app/services/query_service.py  (QueryService: _find_user_from_query,
    _find_timetable_entry, handle_query)
  SpeechToSpeech.py              (session store and socket event handlers)
  scripts/database_setup.py      (setup_sql_database)

Conventions of the embedding:
  * Python strings are Lean `String` / `List Char`; the regular expressions of
    the source are translated to explicit character-level scanners with the
    same matching semantics (leftmost match, alternation order, greedy
    repetition, word boundaries), restricted to ASCII input.
  * The SQL store is a list of rows in table order; `.first()` is `List.find?`.
  * The RAG chain is an oracle parameter: `none` models a chain that failed to
    load (`self.rag_chain is None`); `some f` models a loaded chain whose
    `invoke` returns `f q`, where `f q = none` models `invoke` raising an
    exception (caught by the `except Exception` handlers of the source).
  * Exceptions are modelled with `Except PyErr`; each `try/except` of the
    source becomes an explicit match on the error kind, and an uncaught error
    kind is re-raised (propagated as `.error`).
  * `handle_query` additionally returns the list of queries actually sent to
    the RAG chain, so that claims about "RAG is (never) invoked" are statable.
-/

namespace AIAssistant

/-! ### Character and string helpers (Python `str` operations, ASCII scope) -/

/-- Python `str.lower` on a single character (ASCII). -/
def pyToLower (c : Char) : Char := c.toLower

/-- Python regex `\s` character class: space, tab, newline, CR, VT, FF. -/
def pyIsSpace (c : Char) : Bool :=
  c = ' ' || c = '\t' || c = '\n' || c = '\r' || c = Char.ofNat 11 || c = Char.ofNat 12

/-- Python regex `\w` character class (ASCII): alphanumeric or underscore. -/
def isWordChar (c : Char) : Bool := c.isAlphanum || c = '_'

/-- Python `str.lower` on a character list. -/
def lowerList (l : List Char) : List Char := l.map pyToLower

/-- Python `str.lower` on a string. -/
def lowerStr (s : String) : String := String.mk (lowerList s.toList)

/-- Python `needle in hay` substring test (`''` is contained in everything). -/
def containsSub (pat : List Char) : List Char → Bool
  | [] => pat.isEmpty
  | c :: rest => pat.isPrefixOf (c :: rest) || containsSub pat rest

/-- SQL `ilike` without wildcards: case-insensitive equality. -/
def ciEqStr (a b : String) : Bool := lowerList a.toList == lowerList b.toList

/-- SQL `ilike '%pat%'`: case-insensitive substring containment. -/
def ciContains (hay pat : String) : Bool :=
  containsSub (lowerList pat.toList) (lowerList hay.toList)

/-- Python truthiness of an optional string column (`None` and `''` are falsy). -/
def pyTruthy : Option String → Bool
  | none => false
  | some s => s ≠ ""

/-- Python `str.strip()`: remove leading and trailing whitespace. -/
def pyStrip (s : String) : String :=
  String.mk (((s.toList.dropWhile pyIsSpace).reverse.dropWhile pyIsSpace).reverse)

/-! ### Tokenisation for the word-boundary (`\b`) anchored patterns

`_find_user_from_query` uses `\b`-anchored patterns, so a match can only start
at the beginning of a maximal run of word characters and must cover whole runs.
`runsWithGaps` splits the input into its maximal word-character runs, each
paired with the gap of non-word characters that follows it. -/

/-- One step of the right-to-left tokenisation. The state is the gap of
non-word characters read so far (to the left of the pairs already built) and
the run/gap pairs of the processed suffix. A word character either extends
the adjacent run (when no gap separates them) or starts a new run whose
following gap is the pending one. -/
def runsStep (c : Char) (st : List Char × List (List Char × List Char)) :
    List Char × List (List Char × List Char) :=
  if isWordChar c then
    match st with
    | ([], (r, g) :: rest) => ([], (c :: r, g) :: rest)
    | (gap, pairs) => ([], ([c], gap) :: pairs)
  else (c :: st.1, st.2)

/-- Maximal runs of word characters, each paired with the non-word gap that
follows it (the gap before the first run is irrelevant to the `\b`-anchored
patterns and is dropped). -/
def runsWithGaps (l : List Char) : List (List Char × List Char) :=
  (l.foldr runsStep ([], [])).2

/-! ### The identifier pattern of `_find_user_from_query`

Source regex: `\b(IT\d{3}|[A-Z0-9]{10,})\b` with `re.IGNORECASE`, `re.search`.
Because both ends are word boundaries and all the matchable characters are word
characters, a match is exactly a maximal word run that is either `IT` followed
by three digits (case-insensitively), or at least ten alphanumeric characters
(a run containing `_` can never satisfy the trailing `\b`). `re.search` yields
the leftmost such run. -/

/-- One alternative of the identifier regex: `IT` plus exactly three digits. -/
def isIdRun : List Char → Bool
  | [a, b, c, d, e] =>
    pyToLower a = 'i' && pyToLower b = 't' && c.isDigit && d.isDigit && e.isDigit
  | _ => false

/-- Other alternative: ten or more alphanumeric characters (case-insensitive). -/
def isLongRun (r : List Char) : Bool := decide (10 ≤ r.length) && r.all Char.isAlphanum

/-- `re.search` for the identifier pattern: leftmost matching word run. -/
def findIdToken (l : List Char) : Option String :=
  ((runsWithGaps l).map Prod.fst).findSome? fun r =>
    if isIdRun r || isLongRun r then some (String.mk r) else none

/-! ### The name pattern of `_find_user_from_query`

Source regex: `\b([A-Z][a-z]+(?:\s[A-Z][a-z]+)*)\b` with `re.findall`.
A match is a maximal sequence of capitalised words (whole word runs of the
shape `[A-Z][a-z]+`) in which consecutive words are separated by exactly one
whitespace character; `re.findall` returns those sequences left to right. -/

/-- A whole word run of the shape `[A-Z][a-z]+`. -/
def isNameWord : List Char → Bool
  | c :: d :: rest => c.isUpper && d.isLower && rest.all Char.isLower
  | _ => false

/-- The gap between two words of one name match must be a single `\s` char. -/
def nameSep (g : List Char) : Bool :=
  match g with
  | [c] => pyIsSpace c
  | _ => false

/-- `re.findall` for the name pattern, processing the run/gap pairs with the
current partial match (accumulated text and the gap after it) as state. -/
def groupNamesGo : Option (List Char × List Char) → List (List Char × List Char) → List String
  | none, [] => []
  | some (acc, _), [] => [String.mk acc]
  | none, (r, g) :: rest =>
    if isNameWord r then groupNamesGo (some (r, g)) rest else groupNamesGo none rest
  | some (acc, g0), (r, g) :: rest =>
    if nameSep g0 && isNameWord r then groupNamesGo (some (acc ++ g0 ++ r, g)) rest
    else String.mk acc ::
      groupNamesGo (if isNameWord r then some (r, g) else none) rest

/-- All name-pattern matches of the query, left to right. -/
def findNames (l : List Char) : List String := groupNamesGo none (runsWithGaps l)

/-! ### Data model of the query service (app/db/models.py, via the ORM)

`User.attendance` is the ORM relationship: the attendance rows of the user. -/

structure Attendance where
  subject : String
  percentage : ℚ
deriving DecidableEq

structure User where
  id : Nat
  name : String
  role : String
  exam_no : String
  student_id : Option String
  attendance : List Attendance
deriving DecidableEq

/-- The filter `User.exam_no.ilike(ident) | User.student_id.ilike(ident)`
(`ilike` on a SQL NULL is not true). -/
def identMatches (ident : String) (u : User) : Bool :=
  ciEqStr u.exam_no ident ||
    (match u.student_id with
     | some s => ciEqStr s ident
     | none => false)

/-- The `common_words` set filtered out of name candidates. -/
def common_words : List String :=
  ["what", "is", "the", "of", "for", "tell", "me", "provide"]

/-- The name-candidate loop: skip common words, return the first candidate
that matches some user by `name.ilike('%candidate%')`. -/
def lookupByName : List String → List User → Option User
  | [], _ => none
  | n :: rest, db =>
    if common_words.contains (lowerStr n) then lookupByName rest db
    else
      match db.find? (fun u => ciContains u.name n) with
      | some u => some u
      | none => lookupByName rest db

/-- `QueryService._find_user_from_query`: if the identifier pattern matches,
the result of the identifier lookup is returned directly (even when it is
`None`); only otherwise are name candidates tried. -/
def find_user_from_query (query : String) (db : List User) : Option User :=
  match findIdToken query.toList with
  | some ident => db.find? (identMatches ident)
  | none => lookupByName (findNames query.toList) db

/-! ### The day/time pattern of `_find_timetable_entry`

Source regex (with `(?i)`):
`(monday|...|sunday)\s+(?:at)?\s*(\d{1,2}(?::\d{2})?)\s*(?:am|pm)?`
searched with `re.search`. There are no word boundaries, so the scan tries
every position; no day name is a prefix of another, so at most one alternative
matches at a position. The character classes of the consecutive pieces are
disjoint, so greedy matching needs no backtracking. Only group 2 (the time
digits) feeds live code: group 1 (the day) is used only to build the
`rag_query` string, which is dead because of the failing import below. -/

/-- Case-insensitive prefix test against an already-lowercase pattern. -/
def ciStarts : List Char → List Char → Bool
  | [], _ => true
  | _ :: _, [] => false
  | p :: ps, c :: cs => pyToLower c = p && ciStarts ps cs

/-- The seven day names, in the alternation order of the source regex. -/
def dayNames : List (List Char) :=
  ["monday", "tuesday", "wednesday", "thursday", "friday", "saturday",
    "sunday"].map String.toList

/-- The part of the pattern after the day name:
`\s+(?:at)?\s*(\d{1,2}(?::\d{2})?)`; returns group 2 on success. -/
def timeTail (l : List Char) : Option String :=
  if (l.takeWhile pyIsSpace).isEmpty then none
  else
    let l1 := l.dropWhile pyIsSpace
    let l2 :=
      match l1 with
      | a :: t :: r => if pyToLower a = 'a' && pyToLower t = 't' then r else l1
      | _ => l1
    match l2.dropWhile pyIsSpace with
    | d1 :: r1 =>
      if d1.isDigit then
        match r1 with
        | d2 :: r2 =>
          if d2.isDigit then
            match r2 with
            | c :: m1 :: m2 :: _ =>
              if c = ':' && m1.isDigit && m2.isDigit then
                some (String.mk [d1, d2, ':', m1, m2])
              else some (String.mk [d1, d2])
            | _ => some (String.mk [d1, d2])
          else
            match r1 with
            | c :: m1 :: m2 :: _ =>
              if c = ':' && m1.isDigit && m2.isDigit then
                some (String.mk [d1, ':', m1, m2])
              else some (String.mk [d1])
            | _ => some (String.mk [d1])
        | [] => some (String.mk [d1])
      else none
    | [] => none

/-- `re.search` scan for the day/time pattern: at each position try the day
alternatives in order; on a day hit, the rest of the pattern must also match,
otherwise the scan moves to the next position. Returns group 2. -/
def findDayTime : List Char → Option String
  | [] => none
  | c :: rest =>
    match dayNames.findSome? fun d =>
        if ciStarts d (c :: rest) then timeTail ((c :: rest).drop d.length)
        else none with
    | some t => some t
    | none => findDayTime rest

/-! ### `datetime.strptime` (only the two formats used by the source)

`strptime` raises `ValueError` when the text does not match the format; that
is the only exception it can raise here, so the model returns an `Option`
(`none` = `ValueError`). The numeric directives follow CPython `_strptime`:
`%I` is `(1[0-2]|0[1-9]|[1-9])`, `%H` is `(2[0-3]|[0-1]\d|\d)`, `%M` is
`([0-5]\d|\d)`, `%p` is `am|pm` case-insensitively, and the whole input must
be consumed. -/

/-- `%I`: hour 01-12, one or two digits; returns value and rest. -/
def parseHourI : List Char → Option (Nat × List Char)
  | '1' :: c :: r =>
    if '0' ≤ c ∧ c ≤ '2' then some (10 + (c.toNat - 48), r) else some (1, c :: r)
  | '0' :: c :: r => if '1' ≤ c ∧ c ≤ '9' then some (c.toNat - 48, r) else none
  | c :: r => if c.isDigit ∧ c ≠ '0' then some (c.toNat - 48, r) else none
  | [] => none

/-- `%H`: hour 00-23, one or two digits; returns value and rest. -/
def parseHourH : List Char → Option (Nat × List Char)
  | '2' :: c :: r =>
    if '0' ≤ c ∧ c ≤ '3' then some (20 + (c.toNat - 48), r) else some (2, c :: r)
  | c :: d :: r =>
    if (c = '0' ∨ c = '1') ∧ d.isDigit then
      some ((c.toNat - 48) * 10 + (d.toNat - 48), r)
    else if c.isDigit then some (c.toNat - 48, d :: r)
    else none
  | [c] => if c.isDigit then some (c.toNat - 48, []) else none
  | [] => none

/-- `%M`: minute 00-59, one or two digits; returns value and rest. -/
def parseMin : List Char → Option (Nat × List Char)
  | c :: d :: r =>
    if ('0' ≤ c ∧ c ≤ '5') ∧ d.isDigit then
      some ((c.toNat - 48) * 10 + (d.toNat - 48), r)
    else if c.isDigit then some (c.toNat - 48, d :: r)
    else none
  | [c] => if c.isDigit then some (c.toNat - 48, []) else none
  | [] => none

/-- `%p` consuming the whole rest: `am`/`pm`, case-insensitive; `true` = pm. -/
def parseAmPm : List Char → Option Bool
  | [a, m] =>
    if pyToLower a = 'a' ∧ pyToLower m = 'm' then some false
    else if pyToLower a = 'p' ∧ pyToLower m = 'm' then some true
    else none
  | _ => none

/-- 12-hour to 24-hour conversion performed by `strptime` for `%I`/`%p`. -/
def to24 (h : Nat) (pm : Bool) : Nat :=
  if pm then (if h = 12 then 12 else h + 12) else (if h = 12 then 0 else h)

/-- `datetime.strptime(s, '%I:%M%p').time()` as (hour, minute). -/
def pyStrptimeIMp (s : String) : Option (Nat × Nat) :=
  match parseHourI s.toList with
  | none => none
  | some (h, r1) =>
    match r1 with
    | ':' :: r2 =>
      match parseMin r2 with
      | none => none
      | some (m, r3) =>
        match parseAmPm r3 with
        | none => none
        | some pm => some (to24 h pm, m)
    | _ => none

/-- `datetime.strptime(s, '%H:%M').time()` as (hour, minute). -/
def pyStrptimeHM (s : String) : Option (Nat × Nat) :=
  match parseHourH s.toList with
  | none => none
  | some (h, r1) =>
    match r1 with
    | ':' :: r2 =>
      match parseMin r2 with
      | some (m, []) => some (h, m)
      | _ => none
    | _ => none

/-- `re.search(r'(am|pm)', query, re.I)`: leftmost case-insensitive `am` or
`pm`, returning the matched text (original case); `none` models a match object
of `None`, on which `.group(1)` would raise `AttributeError`. -/
def firstAmPm : List Char → Option String
  | a :: b :: rest =>
    if pyToLower a = 'a' ∧ pyToLower b = 'm' then some (String.mk [a, b])
    else if pyToLower a = 'p' ∧ pyToLower b = 'm' then some (String.mk [a, b])
    else firstAmPm (b :: rest)
  | _ => none

/-- Exception kinds that the embedding distinguishes. -/
inductive PyErr
  | valueError
  | attributeError
deriving DecidableEq

/-- `QueryService._find_timetable_entry`.

`.ok none` means no day/time pattern was found (Python `None`); `.ok (some s)`
is a returned string; `.error e` is an uncaught exception.

The `try` block around `strptime` catches only `ValueError`, so the potential
`AttributeError` from `.group(1)` on a failed am/pm search would propagate
(the totality theorem below shows this path is unreachable).

After a successful parse the source executes
`from app.services.rag_service import get_retriever` inside a `try`; the
module `app/services/rag_service.py` defines no `get_retriever`, so this
always raises `ImportError`, which is caught and turned into the fixed
knowledge-base-unavailable sentence. Everything after that statement in the
`try` block (the retriever invocation and the document loop) is therefore
dead code and is not part of the embedding. -/
def find_timetable_entry (query : String) : Except PyErr (Option String) :=
  match findDayTime query.toList with
  | none => .ok none
  | some timeStr =>
    let ql := lowerList query.toList
    let parsed : Except PyErr (Nat × Nat) :=
      if containsSub ['a', 'm'] ql || containsSub ['p', 'm'] ql then
        match firstAmPm query.toList with
        | none => .error .attributeError
        | some ap =>
          match pyStrptimeIMp (timeStr ++ ap) with
          | some v => .ok v
          | none => .error .valueError
      else
        match pyStrptimeHM timeStr with
        | some v => .ok v
        | none => .error .valueError
    match parsed with
    | .error .valueError =>
      .ok (some "I couldn\x27t understand the time format. Please try \x279:00 AM\x27 or \x2709:00\x27.")
    | .error e => .error e
    | .ok _ =>
      .ok (some "I am unable to access my timetable knowledge base at the moment.")

/-! ### `QueryService.handle_query` -/

/-- The RAG chain: `none` = failed to load; `some f` = loaded, with `f q = none`
modelling an exception raised by `invoke` (caught at every call site). -/
def RagChain := Option (String → Option String)

deriving instance DecidableEq for Except

/-- Result of `handle_query`: the returned string (or an uncaught exception)
together with the queries that were actually sent to the RAG chain. -/
structure QueryOutcome where
  result : Except PyErr String
  ragCalls : List String
deriving DecidableEq

/-- Python float repr, modelled for floats with integral value (the only
percentage values the verified claims evaluate); non-integral rationals are
rendered as exact fractions. -/
def pyFloatRepr (q : ℚ) : String :=
  if q.den = 1 then toString q.num ++ ".0" else toString q

/-- One line of `f"- {att.subject}: {att.percentage}%"`. -/
def attendanceLine (a : Attendance) : String :=
  "- " ++ a.subject ++ ": " ++ pyFloatRepr a.percentage ++ "%"

/-- `"\n".join(...)` over the attendance rows, in row order. -/
def attendanceBlock (l : List Attendance) : String :=
  String.intercalate "\n" (l.map attendanceLine)

/-- The rephrased user-specific RAG query built by `handle_query`. -/
def rephrased (u : User) (query : String) : String :=
  "Based on the provided documents, answer this question about the student with exam number "
    ++ u.exam_no ++ ": " ++ query

/-- `QueryService.handle_query(query, db, role)`. The `role` parameter is
accepted and never read, exactly as in the source. -/
def handle_query (query : String) (db : List User) (chain : RagChain)
    (role : String) : QueryOutcome :=
  let query_lower := lowerStr query
  let user := find_user_from_query query db
  match find_timetable_entry query with
  | .error e => ⟨.error e, []⟩
  | .ok (some s) => ⟨.ok s, []⟩
  | .ok none =>
    match user with
    | some u =>
      if containsSub "attendance".toList query_lower.toList then
        if u.attendance.isEmpty then
          ⟨.ok ("I couldn\x27t find any attendance records for " ++ u.name ++ "."), []⟩
        else
          ⟨.ok ("Certainly! Here is the attendance for " ++ u.name ++ ":\n"
              ++ attendanceBlock u.attendance), []⟩
      else if containsSub "student id".toList query_lower.toList then
        if pyTruthy u.student_id then
          ⟨.ok ("The student ID for " ++ u.name ++ " is "
              ++ u.student_id.getD "" ++ "."), []⟩
        else ⟨.ok ("I don\x27t have a Student ID on file for " ++ u.name ++ "."), []⟩
      else if containsSub "exam no".toList query_lower.toList
          || containsSub "exam number".toList query_lower.toList then
        ⟨.ok ("The exam number for " ++ u.name ++ " is " ++ u.exam_no ++ "."), []⟩
      else
        match chain with
        | none =>
          ⟨.ok "I can access student records, but my broader knowledge base is unavailable right now.", []⟩
        | some f =>
          match f (rephrased u query) with
          | some resp => ⟨.ok (pyStrip resp), [rephrased u query]⟩
          | none =>
            ⟨.ok "I found the student, but had trouble looking up the details. Please try again.",
              [rephrased u query]⟩
    | none =>
      match chain with
      | none =>
        ⟨.ok "I\x27m sorry, my knowledge base is currently unavailable. Please try again later.", []⟩
      | some f =>
        match f query with
        | some resp => ⟨.ok (pyStrip resp), [query]⟩
        | none =>
          ⟨.ok "I encountered an error while processing your request. Please try again.",
            [query]⟩

/-! ### Speech session store (SpeechToSpeech.py)

`session_data` is a process-wide dict from socket session id to a per-session
audio buffer; it is modelled as a function into `Option SessionEntry`.
Audio samples (numpy float32 values) are abstracted as an opaque `Int` code;
the handlers only concatenate them. The speech pipeline run by `end_stream`
(STT model, transliteration, both translators and the LLM call) is external
ML code and is modelled as an oracle `List Int → Option Transcription`, where
`none` models an exception raised inside the `try` block (caught and turned
into the fixed error transcription). -/

structure SessionEntry where
  buffer : List Int
deriving DecidableEq

def SessionStore := String → Option SessionEntry

/-- `session_data[sid] = e`. -/
def storeSet (sid : String) (e : SessionEntry) (st : SessionStore) : SessionStore :=
  fun k => if k = sid then some e else st k

/-- `del session_data[sid]` (callers guard with `if sid in session_data`). -/
def storeDel (sid : String) (st : SessionStore) : SessionStore :=
  fun k => if k = sid then none else st k

/-- The payload of a `transcription` socket event. -/
structure Transcription where
  original_text : String
  english_text : String
  translated_text : String
deriving DecidableEq

/-- `handle_connect`: initialise an empty buffer for the session. -/
def handle_connect (sid : String) (st : SessionStore) : SessionStore :=
  storeSet sid ⟨[]⟩ st

/-- `handle_audio_chunk`: append to the buffer; ignore unknown sessions. -/
def handle_audio_chunk (sid : String) (data : List Int) (st : SessionStore) :
    SessionStore :=
  match st sid with
  | none => st
  | some e => storeSet sid ⟨e.buffer ++ data⟩ st

/-- `handle_cancel_stream`: discard the buffer without processing. -/
def handle_cancel_stream (sid : String) (st : SessionStore) : SessionStore :=
  match st sid with
  | none => st
  | some _ => storeDel sid st

/-- `handle_end_stream`: returns the new store and the emitted `transcription`
events. `sttLoaded` models whether the STT model objects are non-`None`. -/
def handle_end_stream (sttLoaded : Bool)
    (pipeline : List Int → Option Transcription) (sid : String)
    (st : SessionStore) : SessionStore × List Transcription :=
  match st sid with
  | none => (st, [⟨"No audio recorded.", "", ""⟩])
  | some e =>
    if e.buffer.isEmpty then (storeDel sid st, [⟨"No audio recorded.", "", ""⟩])
    else if !sttLoaded then
      (storeDel sid st, [⟨"STT model not loaded on server.", "", ""⟩])
    else
      match pipeline e.buffer with
      | some t => (storeDel sid st, [t])
      | none =>
        (storeDel sid st, [⟨"An error occurred during transcription.", "", ""⟩])

/-- The socket events of one session's lifecycle. -/
inductive SpeechEv
  | connect
  | audioChunk (data : List Int)
  | endStream
  | cancelStream

/-- Dispatch one event for a fixed session id. -/
def speechStep (sttLoaded : Bool) (pipeline : List Int → Option Transcription)
    (sid : String) (st : SessionStore) : SpeechEv → SessionStore × List Transcription
  | .connect => (handle_connect sid st, [])
  | .audioChunk d => (handle_audio_chunk sid d st, [])
  | .cancelStream => (handle_cancel_stream sid st, [])
  | .endStream => handle_end_stream sttLoaded pipeline sid st

/-- Run a sequence of events, accumulating every emitted transcription. -/
def speechRun (sttLoaded : Bool) (pipeline : List Int → Option Transcription)
    (sid : String) : SessionStore → List SpeechEv → SessionStore × List Transcription
  | st, [] => (st, [])
  | st, e :: rest =>
    let p := speechStep sttLoaded pipeline sid st e
    let q := speechRun sttLoaded pipeline sid p.1 rest
    (q.1, p.2 ++ q.2)

/-! ### Database setup (scripts/database_setup.py)

The PDF parse (`parse_students_from_pdf`) reads an external file, so its
result is a parameter `parsed`; `random.uniform` percentages are a parameter
`pct` (student index, subject index → value). The relational state is the row
contents of the two tables.

During population, `int(re.search(r'\d+', exam_no).group())` raises
`AttributeError` when `exam_no` has no digit, and the flush/commit raises
`IntegrityError` when two rows collide on the primary key `id` or on the
unique columns `exam_no` / `student_id`. Any of these aborts the run, and
`db.rollback()` restores the pre-run contents, so the final state depends only
on whether some step fails; `popOk` is that failure predicate. -/

structure StudentRec where
  exam_no : String
  student_id : String
  name : String
deriving DecidableEq

structure UserRow where
  id : Nat
  name : String
  role : String
  exam_no : String
  student_id : String
deriving DecidableEq

structure AttendanceRow where
  subject : String
  percentage : ℚ
  user_id : Nat
deriving DecidableEq

structure DbState where
  users : List UserRow
  attendance : List AttendanceRow
deriving DecidableEq

/-- `int(re.search(r'\d+', s).group())`: value of the first digit run. -/
def firstDigitRun (s : String) : Option Nat :=
  match (s.toList.dropWhile (fun c => !c.isDigit)).takeWhile Char.isDigit with
  | [] => none
  | ds => some (ds.foldl (fun n c => n * 10 + (c.toNat - 48)) 0)

/-- The five placeholder subjects inserted per student. -/
def subjects : List String :=
  ["Physics", "Chemistry", "Mathematics", "Data Structures", "Algorithms"]

/-- Population succeeds iff every exam number yields an id and the generated
ids, exam numbers and student ids are pairwise distinct. -/
def popOk (parsed : List StudentRec) : Bool :=
  parsed.all (fun s => (firstDigitRun s.exam_no).isSome)
    && (parsed.map (fun s => (firstDigitRun s.exam_no).getD 0)).Nodup
    && (parsed.map StudentRec.exam_no).Nodup
    && (parsed.map StudentRec.student_id).Nodup

/-- The user rows inserted on a successful run. -/
def builtUsers (parsed : List StudentRec) : List UserRow :=
  parsed.map fun s =>
    ⟨(firstDigitRun s.exam_no).getD 0, s.name, "student", s.exam_no, s.student_id⟩

/-- The attendance rows inserted on a successful run: five per student, in
student order then subject order. -/
def builtAttendance (parsed : List StudentRec) (pct : Nat → Nat → ℚ) :
    List AttendanceRow :=
  (parsed.enum).flatMap fun p =>
    (subjects.enum).map fun q =>
      ⟨q.2, pct p.1 q.1, (firstDigitRun p.2.exam_no).getD 0⟩

/-- `setup_sql_database`: skip population when the users table already has
rows; abort when parsing produced nothing; otherwise insert everything in one
transaction, rolling back (leaving the state unchanged) if any step fails. -/
def setup_sql_database (parsed : List StudentRec) (pct : Nat → Nat → ℚ)
    (db : DbState) : DbState :=
  if 0 < db.users.length then db
  else if parsed.isEmpty then db
  else if popOk parsed then
    ⟨db.users ++ builtUsers parsed, db.attendance ++ builtAttendance parsed pct⟩
  else db

/-! ### Concrete fixtures used by witnesses and counterexamples -/

/-- A student row as produced by the ingestion script. -/
def aliceUser : User :=
  ⟨1, "Alice Smith", "student", "IT116", some "22ITUBS001",
    [⟨"Physics", 85⟩, ⟨"Chemistry", 92⟩]⟩

/-- A second student row. -/
def bobUser : User :=
  ⟨2, "Bob Stone", "student", "IT117", some "22ITUBS002", []⟩

/-! ## Theorems -/

/-- If the lowered query contains `am` or `pm`, the case-insensitive search
`re.search(r'(am|pm)', query, re.I)` cannot return `None`; hence the
`.group(1)` call of `_find_timetable_entry` can never raise. -/
theorem firstAmPm_isSome : ∀ l : List Char,
    (containsSub ['a', 'm'] (lowerList l) || containsSub ['p', 'm'] (lowerList l)) = true →
    (firstAmPm l).isSome = true
  | [] => by simp [containsSub, lowerList]
  | [a] => by simp [containsSub, lowerList, List.isPrefixOf]
  | a :: b :: rest => by
    intro h
    by_cases ham : pyToLower a = 'a' ∧ pyToLower b = 'm'
    · simp [firstAmPm, ham]
    · by_cases hpm : pyToLower a = 'p' ∧ pyToLower b = 'm'
      · simp [firstAmPm, ham, hpm]
      · have htail :
          (containsSub ['a', 'm'] (lowerList (b :: rest))
            || containsSub ['p', 'm'] (lowerList (b :: rest))) = true := by
          simp only [lowerList, List.map_cons, containsSub, List.isPrefixOf,
            Bool.or_eq_true, Bool.and_eq_true, beq_iff_eq] at h ⊢
          tauto
        have := firstAmPm_isSome (b :: rest) htail
        simpa [firstAmPm, ham, hpm] using this

/-- `_find_timetable_entry` never lets an exception escape: the only
uncaught error kind (`AttributeError` on the am/pm search) is unreachable. -/
theorem find_timetable_entry_ok (q : String) :
    ∃ r, find_timetable_entry q = .ok r := by
  unfold find_timetable_entry
  cases hd : findDayTime q.toList with
  | none => exact ⟨none, rfl⟩
  | some timeStr =>
    by_cases hc :
        (containsSub ['a', 'm'] (lowerList q.toList)
          || containsSub ['p', 'm'] (lowerList q.toList)) = true
    · have hsome := firstAmPm_isSome q.toList hc
      cases hap : firstAmPm q.toList with
      | none => rw [hap] at hsome; simp at hsome
      | some ap =>
        simp only [hc, if_true, hap]
        cases pyStrptimeIMp (timeStr ++ ap) with
        | none => exact ⟨_, rfl⟩
        | some v => exact ⟨_, rfl⟩
    · simp only [Bool.not_eq_true] at hc
      simp only [hc, Bool.false_eq_true, if_false]
      cases pyStrptimeHM timeStr with
      | none => exact ⟨_, rfl⟩
      | some v => exact ⟨_, rfl⟩

/-- C3: `handle_query` never raises to its caller — on every input (any
query, database, RAG chain state and role) it returns a string; every
internal failure path (RAG chain unavailable or raising, malformed time
string, no pattern match) ends in one of the fixed fallback sentences. -/
theorem handle_query_never_raises (q : String) (db : List User)
    (chain : RagChain) (role : String) :
    ∃ s, (handle_query q db chain role).result = .ok s := by
  obtain ⟨r, hr⟩ := find_timetable_entry_ok q
  unfold handle_query
  rw [hr]
  cases r with
  | some s => exact ⟨s, rfl⟩
  | none =>
    dsimp only
    cases find_user_from_query q db with
    | some u =>
      dsimp only
      repeat' first
      | exact ⟨_, rfl⟩
      | split
    | none =>
      dsimp only
      repeat' first
      | exact ⟨_, rfl⟩
      | split

/-- C9: the caller's role has no influence on the answer — `handle_query`
accepts the role argument but never reads it, so two calls differing only in
role produce identical outcomes. -/
theorem handle_query_role_irrelevant (q : String) (db : List User)
    (chain : RagChain) (role₁ role₂ : String) :
    handle_query q db chain role₁ = handle_query q db chain role₂ := rfl

/-- C1 (amended): the router's actual precedence order. (1) User
identification tries the identifier pattern first: when an identifier-like
token is present, any identified user matches it by exam number or student id
and the name pattern is never consulted. (2) A day/time pattern match
short-circuits every other branch: the timetable response is returned for any
database, chain and role, with no RAG call. (3) With no day/time match and an
identified user, a database keyword (`attendance`, `student id`,
`exam no`/`exam number`) is answered from the relational store with no RAG
call. (4) With no day/time match and no identified user, a loaded chain is
invoked unconditionally on the original query. There is no relational-keyword
branch of the form `list students after <name>` anywhere in the router. -/
theorem router_precedence (q : String) (db : List User) (chain : RagChain)
    (f : String → Option String) (role : String) :
    (∀ ident, findIdToken q.toList = some ident →
      find_user_from_query q db = none ∨
        ∃ u, find_user_from_query q db = some u ∧ identMatches ident u = true) ∧
    (∀ s, find_timetable_entry q = .ok (some s) →
      handle_query q db chain role = ⟨.ok s, []⟩) ∧
    (∀ u, find_timetable_entry q = .ok none →
      find_user_from_query q db = some u →
      (containsSub "attendance".toList (lowerStr q).toList
        || containsSub "student id".toList (lowerStr q).toList
        || containsSub "exam no".toList (lowerStr q).toList
        || containsSub "exam number".toList (lowerStr q).toList) = true →
      (handle_query q db chain role).ragCalls = []) ∧
    (find_timetable_entry q = .ok none →
      find_user_from_query q db = none →
      (handle_query q db (some f) role).ragCalls = [q]) := by
  refine ⟨?_, ?_, ?_, ?_⟩
  · intro ident hid
    unfold find_user_from_query
    rw [hid]
    dsimp only
    cases hf : db.find? (identMatches ident) with
    | none => exact Or.inl rfl
    | some u => exact Or.inr ⟨u, rfl, List.find?_some hf⟩
  · intro s htt
    unfold handle_query
    rw [htt]
  · intro u htt hu hkw
    unfold handle_query
    rw [htt]
    dsimp only
    rw [hu]
    dsimp only
    by_cases h1 : containsSub "attendance".toList (lowerStr q).toList = true
    · simp only [h1, if_true]
      split <;> rfl
    · simp only [Bool.not_eq_true] at h1
      by_cases h2 : containsSub "student id".toList (lowerStr q).toList = true
      · simp only [h1, h2, Bool.false_eq_true, if_false, if_true]
        split <;> rfl
      · simp only [Bool.not_eq_true] at h2
        have h3 : (containsSub "exam no".toList (lowerStr q).toList
            || containsSub "exam number".toList (lowerStr q).toList) = true := by
          simp only [h1, h2, Bool.false_or] at hkw
          exact hkw
        simp only [h1, h2, h3, Bool.false_eq_true, if_false, if_true]
  · intro htt hu
    unfold handle_query
    rw [htt]
    dsimp only
    rw [hu]
    dsimp only
    split <;> rfl

/-- C1 counterexample: the claimed order "name match before identifier
match" is false on the code. In the query below the name pattern matches
`Alice` and the name lookup would return Alice's row, yet the answer is
computed from the identifier-matched user Bob (`IT117`): the identifier
branch takes precedence over the name branch. -/
theorem router_precedence_counterexample :
    findNames "What is the exam number of Alice IT117".toList = ["What", "Alice"] ∧
    lookupByName ["What", "Alice"] [aliceUser, bobUser] = some aliceUser ∧
    handle_query "What is the exam number of Alice IT117" [aliceUser, bobUser]
        none "guest"
      = ⟨.ok "The exam number for Bob Stone is IT117.", []⟩ ∧
    ("The exam number for Bob Stone is IT117." : String)
      ≠ "The exam number for Alice Smith is IT116." := by
  refine ⟨?_, ?_, ?_, ?_⟩ <;> first
  | rfl
  | decide

/-- C1 witness: the amended precedence facts exercised on concrete inputs,
discharging every hypothesis by evaluation. -/
theorem router_precedence_witness :
    (find_user_from_query "Report for 22ITUBS002" [aliceUser, bobUser] = none ∨
      ∃ u, find_user_from_query "Report for 22ITUBS002" [aliceUser, bobUser] = some u ∧
        identMatches "22ITUBS002" u = true) ∧
    handle_query "monday at 9:00" [aliceUser] (some fun _ => some "x") "guest"
      = ⟨.ok "I am unable to access my timetable knowledge base at the moment.", []⟩ ∧
    (handle_query "IT116 attendance" [aliceUser] (some fun _ => some "x") "guest").ragCalls
      = [] ∧
    (handle_query "when do lectures start" [] (some fun _ => some "x") "guest").ragCalls
      = ["when do lectures start"] := by
  refine ⟨?_, ?_, ?_, ?_⟩
  · exact (router_precedence "Report for 22ITUBS002" [aliceUser, bobUser] none
      (fun _ => some "x") "guest").1 "22ITUBS002" (by rfl)
  · exact (router_precedence "monday at 9:00" [aliceUser]
      (some fun _ => some "x") (fun _ => some "x") "guest").2.1 _ (by rfl)
  · exact (router_precedence "IT116 attendance" [aliceUser]
      (some fun _ => some "x") (fun _ => some "x") "guest").2.2.1 aliceUser
      (by rfl) (by rfl) (by decide)
  · exact (router_precedence "when do lectures start" [] (some fun _ => some "x")
      (fun _ => some "x") "guest").2.2.2 (by rfl) (by rfl)

/-- C2 (amended): for every query whose leftmost identifier-pattern token
resolves in the users table (for instance a known exam number), that matches
no day/time pattern and that contains one of the database keywords
(`attendance`, `student id`, `exam no`/`exam number`), `handle_query` answers
from the relational store: no query is ever sent to the RAG chain and the
result is the same as with no RAG capability at all. -/
theorem known_exam_no_relational (q : String) (db : List User) (u : User)
    (ident : String) (chain : RagChain) (role : String)
    (hid : findIdToken q.toList = some ident)
    (hu : db.find? (identMatches ident) = some u)
    (htt : find_timetable_entry q = .ok none)
    (hkw : (containsSub "attendance".toList (lowerStr q).toList
        || containsSub "student id".toList (lowerStr q).toList
        || containsSub "exam no".toList (lowerStr q).toList
        || containsSub "exam number".toList (lowerStr q).toList) = true) :
    (handle_query q db chain role).ragCalls = [] ∧
    (handle_query q db chain role).result = (handle_query q db none role).result := by
  have hfu : find_user_from_query q db = some u := by
    unfold find_user_from_query
    rw [hid]
    exact hu
  unfold handle_query
  rw [htt]
  dsimp only
  rw [hfu]
  dsimp only
  by_cases h1 : containsSub "attendance".toList (lowerStr q).toList = true
  · simp only [h1, if_true]
    split <;> exact ⟨by trivial, by trivial⟩
  · simp only [Bool.not_eq_true] at h1
    by_cases h2 : containsSub "student id".toList (lowerStr q).toList = true
    · simp only [h1, h2, Bool.false_eq_true, if_false, if_true]
      split <;> exact ⟨by trivial, by trivial⟩
    · simp only [Bool.not_eq_true] at h2
      have h3 : (containsSub "exam no".toList (lowerStr q).toList
          || containsSub "exam number".toList (lowerStr q).toList) = true := by
        simp only [h1, h2, Bool.false_or] at hkw
        exact hkw
      simp only [h1, h2, h3, Bool.false_eq_true, if_false, if_true]
      exact ⟨by trivial, by trivial⟩

/-- C2 counterexample: the claim as stated is false. `Tell me about IT116`
contains the known exam number `IT116` (present in the users table), matches
no day/time pattern and hits no database keyword, so the router rephrases the
query and invokes the RAG chain — the RAG call list is not empty and the
answer is the chain's output, not a relational answer. -/
theorem known_exam_no_relational_counterexample :
    ([aliceUser].map User.exam_no).contains "IT116" = true ∧
    containsSub "IT116".toList "Tell me about IT116".toList = true ∧
    handle_query "Tell me about IT116" [aliceUser]
        (some fun _ => some "Alice is in batch E1") "student"
      = ⟨.ok "Alice is in batch E1",
          ["Based on the provided documents, answer this question about the student with exam number IT116: Tell me about IT116"]⟩ ∧
    (handle_query "Tell me about IT116" [aliceUser]
        (some fun _ => some "Alice is in batch E1") "student").ragCalls ≠ [] := by
  refine ⟨by decide, by decide, by rfl, by decide⟩

/-- C2 witness: the amended statement applied at a concrete query whose
identifier token is the known exam number `IT116` and which asks for
attendance. -/
theorem known_exam_no_relational_witness :
    (handle_query "IT116 attendance" [aliceUser]
        (some fun _ => some "x") "student").ragCalls = [] ∧
    (handle_query "IT116 attendance" [aliceUser]
        (some fun _ => some "x") "student").result
      = (handle_query "IT116 attendance" [aliceUser] none "student").result :=
  known_exam_no_relational "IT116 attendance" [aliceUser] aliceUser "IT116"
    (some fun _ => some "x") "student" (by rfl) (by rfl) (by rfl) (by decide)

/-- C4 (amended): for every query that matches no identifier pattern, no name
pattern and no day/time pattern (there is no relational-keyword pattern in the
code), `handle_query` with a loaded RAG chain sends exactly the original
query to the chain. -/
theorem rag_fallback (q : String) (db : List User)
    (f : String → Option String) (role : String)
    (hid : findIdToken q.toList = none)
    (hnm : findNames q.toList = [])
    (hdt : findDayTime q.toList = none) :
    (handle_query q db (some f) role).ragCalls = [q] := by
  have htt : find_timetable_entry q = .ok none := by
    unfold find_timetable_entry
    rw [hdt]
  have hfu : find_user_from_query q db = none := by
    unfold find_user_from_query
    rw [hid]
    dsimp only
    rw [hnm]
    rfl
  unfold handle_query
  rw [htt]
  dsimp only
  rw [hfu]
  dsimp only
  split <;> rfl

/-- C4 counterexample: the claim as stated is false. `monday 9` matches no
identifier and no name pattern, yet the RAG chain — although loaded — is
never invoked: the day/time pattern matches with a malformed time (`9` has no
minutes), `strptime` raises `ValueError`, and the fixed time-format sentence
is returned with an empty RAG call list. -/
theorem rag_fallback_counterexample :
    findIdToken "monday 9".toList = none ∧
    findNames "monday 9".toList = [] ∧
    handle_query "monday 9" [] (some fun _ => some "rag answer") "guest"
      = ⟨.ok "I couldn\x27t understand the time format. Please try \x279:00 AM\x27 or \x2709:00\x27.",
          []⟩ := by
  refine ⟨by rfl, by rfl, by rfl⟩

/-- C4 witness: the amended statement at a concrete pattern-free query. -/
theorem rag_fallback_witness :
    (handle_query "where are exams held" [aliceUser]
        (some fun _ => some "in the main hall") "guest").ragCalls
      = ["where are exams held"] :=
  rag_fallback "where are exams held" [aliceUser] (fun _ => some "in the main hall")
    "guest" (by rfl) (by rfl) (by rfl)

/-- C5: for an identified user whose attendance records are
`[("Physics", 85.0), ("Chemistry", 92.0)]`, the attendance branch of
`handle_query` answers with the Physics line followed by the Chemistry line,
in the order of the records. -/
theorem attendance_lines_in_order (q : String) (db : List User) (u : User)
    (chain : RagChain) (role : String)
    (htt : find_timetable_entry q = .ok none)
    (hfu : find_user_from_query q db = some u)
    (hkw : containsSub "attendance".toList (lowerStr q).toList = true)
    (hatt : u.attendance = [⟨"Physics", 85⟩, ⟨"Chemistry", 92⟩]) :
    (handle_query q db chain role).result =
      .ok ("Certainly! Here is the attendance for " ++ u.name
        ++ ":\n- Physics: 85.0%\n- Chemistry: 92.0%") := by
  have hblock : attendanceBlock [⟨"Physics", 85⟩, ⟨"Chemistry", 92⟩]
      = "- Physics: 85.0%\n- Chemistry: 92.0%" := by decide
  unfold handle_query
  rw [htt]
  dsimp only
  rw [hfu]
  dsimp only
  simp only [hkw, if_true, hatt, hblock, List.isEmpty_cons, Bool.false_eq_true,
    if_false]
  rw [String.append_assoc]
  rfl

/-- C5 witness: the attendance answer evaluated on a concrete query, database
and user with exactly those two records. -/
theorem attendance_lines_in_order_witness :
    (handle_query "IT116 attendance" [aliceUser] none "guest").result =
      .ok ("Certainly! Here is the attendance for Alice Smith:\n- Physics: 85.0%\n- Chemistry: 92.0%") := by
  have h := attendance_lines_in_order "IT116 attendance" [aliceUser] aliceUser
    none "guest" (by rfl) (by rfl) (by decide) (by rfl)
  exact h

/-- Cancelling a session always leaves no entry for it in the store. -/
theorem handle_cancel_stream_removes (sid : String) (st : SessionStore) :
    handle_cancel_stream sid st sid = none := by
  unfold handle_cancel_stream
  cases h : st sid with
  | none => exact h
  | some e => simp [storeDel]

/-- Running N audio chunks followed by a cancel emits nothing and removes the
session entry, from any starting store. -/
theorem speechRun_chunks_cancel (L : Bool) (P : List Int → Option Transcription)
    (sid : String) :
    ∀ (datas : List (List Int)) (st : SessionStore),
      (speechRun L P sid st
        (datas.map SpeechEv.audioChunk ++ [SpeechEv.cancelStream])).2 = [] ∧
      (speechRun L P sid st
        (datas.map SpeechEv.audioChunk ++ [SpeechEv.cancelStream])).1 sid = none
  | [], st => by
    refine ⟨rfl, ?_⟩
    simpa [speechRun, speechStep] using handle_cancel_stream_removes sid st
  | d :: ds, st => by
    have ih := speechRun_chunks_cancel L P sid ds (handle_audio_chunk sid d st)
    simpa [speechRun, speechStep] using ih

/-- C6: for every N ≥ 0, after `connect`, N `audio_chunk` events and a
`cancel_stream` on the same session, no transcription event has been emitted
for the session and its entry is gone from the session store — for any speech
pipeline, STT-model state and initial store. -/
theorem cancel_stream_discards (L : Bool) (P : List Int → Option Transcription)
    (sid : String) (st : SessionStore) (datas : List (List Int)) :
    (speechRun L P sid st
      (SpeechEv.connect :: (datas.map SpeechEv.audioChunk ++ [SpeechEv.cancelStream]))).2
      = [] ∧
    (speechRun L P sid st
      (SpeechEv.connect :: (datas.map SpeechEv.audioChunk ++ [SpeechEv.cancelStream]))).1 sid
      = none := by
  have h := speechRun_chunks_cancel L P sid datas (handle_connect sid st)
  simpa [speechRun, speechStep] using h

/-- C10: an `end_stream` for a session whose entry is absent or whose buffer
is empty emits exactly one transcription event with original text
`No audio recorded.` and empty English/translated texts, runs no speech
processing (the conclusion holds for every pipeline and STT-model state), and
leaves no session entry while not touching other sessions. -/
theorem end_stream_no_audio (L : Bool) (P : List Int → Option Transcription)
    (sid : String) (st : SessionStore)
    (h : st sid = none ∨ ∃ e, st sid = some e ∧ e.buffer = []) :
    (handle_end_stream L P sid st).2 = [⟨"No audio recorded.", "", ""⟩] ∧
    (handle_end_stream L P sid st).1 sid = none ∧
    (∀ k, k ≠ sid → (handle_end_stream L P sid st).1 k = st k) := by
  rcases h with h | ⟨e, h, hb⟩
  · unfold handle_end_stream
    rw [h]
    exact ⟨rfl, h, fun k _ => rfl⟩
  · unfold handle_end_stream
    rw [h]
    dsimp only
    rw [hb]
    refine ⟨rfl, ?_, ?_⟩
    · simp [storeDel]
    · intro k hk
      simp [storeDel, hk]

/-- C10 witness: an `end_stream` on a freshly connected session (empty
buffer) with a loaded model and a pipeline that would produce output. -/
theorem end_stream_no_audio_witness :
    (handle_end_stream true (fun _ => some ⟨"a", "b", "c"⟩) "s1"
      (storeSet "s1" ⟨[]⟩ fun _ => none)).2 = [⟨"No audio recorded.", "", ""⟩] ∧
    (handle_end_stream true (fun _ => some ⟨"a", "b", "c"⟩) "s1"
      (storeSet "s1" ⟨[]⟩ fun _ => none)).1 "s1" = none := by
  have h := end_stream_no_audio true (fun _ => some ⟨"a", "b", "c"⟩) "s1"
    (storeSet "s1" ⟨[]⟩ fun _ => none)
    (Or.inr ⟨⟨[]⟩, by simp [storeSet], rfl⟩)
  exact ⟨h.1, h.2.1⟩

/-- C7: `setup_sql_database` is idempotent. When the users table is non-empty
the run inserts nothing into any table, and — for any parse result and any
(even different) random percentage draws — running the script twice leaves
the same database state as running it once. -/
theorem setup_sql_database_idempotent (parsed : List StudentRec)
    (pct pct' : Nat → Nat → ℚ) (db : DbState) :
    (db.users ≠ [] → setup_sql_database parsed pct db = db) ∧
    setup_sql_database parsed pct' (setup_sql_database parsed pct db)
      = setup_sql_database parsed pct db := by
  have hskip : ∀ (d : DbState) (p : Nat → Nat → ℚ), d.users ≠ [] →
      setup_sql_database parsed p d = d := by
    intro d p hd
    unfold setup_sql_database
    rw [if_pos (List.length_pos.mpr hd)]
  refine ⟨hskip db pct, ?_⟩
  by_cases h0 : db.users = []
  · by_cases hp : parsed.isEmpty
    · simp [setup_sql_database, h0, hp]
    · by_cases hok : popOk parsed = true
      · have hfirst : setup_sql_database parsed pct db
            = ⟨db.users ++ builtUsers parsed, db.attendance ++ builtAttendance parsed pct⟩ := by
          unfold setup_sql_database
          rw [if_neg (by simp [h0]), if_neg (by simp [hp]), if_pos hok]
        rw [hfirst]
        apply hskip
        have : builtUsers parsed ≠ [] := by
          unfold builtUsers
          simp only [ne_eq, List.map_eq_nil_iff]
          intro hc
          rw [hc] at hp
          exact hp rfl
        simp [h0, this]
      · have hfirst : setup_sql_database parsed pct db = db := by
          unfold setup_sql_database
          rw [if_neg (by simp [h0]), if_neg (by simp [hp]), if_neg hok]
        rw [hfirst]
        unfold setup_sql_database
        rw [if_neg (by simp [h0]), if_neg (by simp [hp]), if_neg hok]
  · rw [hskip db pct h0]
    exact hskip db pct' h0

/-- C7 witness: on a database whose users table already has a row, the setup
run changes nothing; and a successful run on an empty database is a fixed
point of a second run. -/
theorem setup_sql_database_idempotent_witness :
    setup_sql_database [⟨"IT116", "22ITUBS001", "ALICE"⟩] (fun _ _ => 85)
        ⟨[⟨7, "X", "student", "IT007", "S7"⟩], []⟩
      = ⟨[⟨7, "X", "student", "IT007", "S7"⟩], []⟩ ∧
    setup_sql_database [⟨"IT116", "22ITUBS001", "ALICE"⟩] (fun _ _ => 85)
        (setup_sql_database [⟨"IT116", "22ITUBS001", "ALICE"⟩] (fun _ _ => 85) ⟨[], []⟩)
      = setup_sql_database [⟨"IT116", "22ITUBS001", "ALICE"⟩] (fun _ _ => 85) ⟨[], []⟩ :=
  ⟨(setup_sql_database_idempotent [⟨"IT116", "22ITUBS001", "ALICE"⟩]
      (fun _ _ => 85) (fun _ _ => 85) ⟨[⟨7, "X", "student", "IT007", "S7"⟩], []⟩).1
      (by decide),
    (setup_sql_database_idempotent [⟨"IT116", "22ITUBS001", "ALICE"⟩]
      (fun _ _ => 85) (fun _ _ => 85) ⟨[], []⟩).2⟩

/-- C8: if any step of the population raises (a missing digit in an exam
number, or a primary-key/unique-constraint collision at flush or commit), the
whole batch is aborted and the transaction is rolled back: the database state
after the run equals the state before it. -/
theorem setup_sql_database_rollback (parsed : List StudentRec)
    (pct : Nat → Nat → ℚ) (db : DbState)
    (h : popOk parsed = false) :
    setup_sql_database parsed pct db = db := by
  unfold setup_sql_database
  split
  · rfl
  · split
    · rfl
    · rw [if_neg (by simp [h])]

/-- C8 witness: two parsed records that collide on `exam_no` (and on the
derived primary key) make population fail, and the run leaves an empty
database empty. -/
theorem setup_sql_database_rollback_witness :
    popOk [⟨"IT116", "NA1", "A"⟩, ⟨"IT116", "NA2", "B"⟩] = false ∧
    setup_sql_database [⟨"IT116", "NA1", "A"⟩, ⟨"IT116", "NA2", "B"⟩]
        (fun _ _ => 70) ⟨[], []⟩ = ⟨[], []⟩ :=
  ⟨by decide,
    setup_sql_database_rollback [⟨"IT116", "NA1", "A"⟩, ⟨"IT116", "NA2", "B"⟩]
      (fun _ _ => 70) ⟨[], []⟩ (by decide)⟩

end AIAssistant
